import Mathlib

/-
Verification of the roomctl device-protocol layer against its design
specification.  The Python sources (app/drivers/dsp408_ver_7.py,
app/drivers/pjlink.py, app/drivers/pjlink_sync.py, app/api_ver_7.py) are
shallowly embedded below: pure functions become Lean functions, machine
floats are modelled as exact rationals, socket I/O is modelled by explicit
byte streams / device-behaviour records, and Python exceptions become
an Except error type.
-/

namespace Roomctl

/-- Python exception kinds raised by the embedded code paths. -/
inductive PyErr where
  | timeoutError
  | connectionError
  | runtimeError
  | valueError
  | typeError
  | nameError
deriving DecidableEq, Repr

/-! ## DbCodeTable (dsp408_ver_7.py, code_to_db / db_to_code)

Python floats are modelled as exact rationals (0.5 and 0.1 become 1/2 and
1/10).  Python round() rounds half to even; pyRound reproduces that. -/

/-- Rounding of a rational to the nearest integer, ties to even, as
Python round() does. -/
def pyRound (q : ℚ) : ℤ :=
  if q - ⌊q⌋ < 1/2 then ⌊q⌋
  else if 1/2 < q - ⌊q⌋ then ⌊q⌋ + 1
  else if ⌊q⌋ % 2 = 0 then ⌊q⌋ else ⌊q⌋ + 1

/-- Embedding of code_to_db: raises ValueError outside [0,400], else a
three-segment piecewise-linear map to decibels. -/
def codeToDb (code : ℤ) : Except PyErr ℚ :=
  if ¬(0 ≤ code ∧ code ≤ 400) then Except.error PyErr.valueError
  else if code ≤ 80 then Except.ok (-60 + code * (1/2))
  else if code ≤ 280 then Except.ok (-20 + (code - 80) * (1/10))
  else Except.ok (0 + (code - 280) * (1/10))

/-- Clamping prelude of db_to_code: the two successive reassignments of
db, first raising to -60, then lowering to +12. -/
def clampDb (db : ℚ) : ℚ :=
  if 12 < (if db < -60 then (-60 : ℚ) else db) then 12
  else if db < -60 then -60 else db

/-- Embedding of db_to_code: clamps the decibel input to [-60,12], then
selects a segment and rounds to the nearest integer code. -/
def dbToCode (db : ℚ) : ℤ :=
  if clampDb db ≤ -20 then pyRound ((clampDb db + 60) / (1/2))
  else if clampDb db ≤ 0 then pyRound (80 + (clampDb db + 20) / (1/10))
  else pyRound (280 + (clampDb db - 0) / (1/10))

/-! ## RS232TCPClient framing and reply handling (dsp408_ver_7.py) -/

def DLE : ℕ := 0x7B
def STX : ℕ := 0x7D

/-- Embedding of RS232TCPClient._build_packet: the 9-byte command frame. -/
def buildPacket (addr cmd d1 d2 d3 : ℕ) : List ℕ :=
  [DLE, STX, addr % 256, cmd % 256, d1 % 256, d2 % 256, d3 % 256, STX, DLE]

/-- Embedding of RS232TCPClient._parse_packet.  Callers only pass 1- or
2-byte packets; the empty case (a Python IndexError) is unreachable because
_recv_exact returns exactly n requested bytes. -/
def parsePacket (pkt : List ℕ) : ℕ × ℕ :=
  match pkt with
  | [] => (0, 0)
  | [a] => (a, 0)
  | a :: b :: _ => (a, b)

/-- Embedding of RS232TCPClient._recv_exact against a device that sends
the bytes of stream and then goes silent: if fewer than n bytes arrive,
the deadline check raises TimeoutError. -/
def recvExact (n : ℕ) (stream : List ℕ) : Except PyErr (List ℕ) :=
  if stream.length < n then Except.error PyErr.timeoutError
  else Except.ok (stream.take n)

/-- Embedding of the reply side of RS232TCPClient.send_command (no echo):
with expect_reply true it reads answByte bytes and parses them; with
expect_reply false it returns none (Python None). -/
def sendCommand (expectReply : Bool) (answByte : ℕ) (stream : List ℕ) :
    Except PyErr (Option (ℕ × ℕ)) :=
  if expectReply then
    match recvExact answByte stream with
    | Except.error e => Except.error e
    | Except.ok pkt => Except.ok (some (parsePacket pkt))
  else Except.ok none

/-- Embedding of RS232TCPClient.get_mute: one-byte reply query; the
`r is None` guard can only fire when send_command returns None, which
never happens with expect_reply true. -/
def getMute (isOutput : Bool) (channel : ℕ) (stream : List ℕ) :
    Except PyErr Bool :=
  match sendCommand true 1 stream with
  | Except.error e => Except.error e
  | Except.ok none => Except.ok false
  | Except.ok (some (rd2, _)) => Except.ok (decide (rd2 ≠ 0))

/-- Embedding of one send_command call of get_gain_db (answ_byte = 2).
Unpacking a None reply would raise TypeError; unreachable with
expect_reply true. -/
def gainAttempt (stream : List ℕ) : Except PyErr (ℕ × ℕ) :=
  match sendCommand true 2 stream with
  | Except.error e => Except.error e
  | Except.ok none => Except.error PyErr.typeError
  | Except.ok (some p) => Except.ok p

/-- Embedding of the decode tail of get_gain_db from a received pair
(r_d2, r_d3): zero-pair shortcut, 16-bit assembly, sentinel fallback,
clamp to [0,400], then code_to_db. -/
def gainFromReply : Except PyErr (ℕ × ℕ) → Except PyErr ℚ
  | Except.error e => Except.error e
  | Except.ok (d2, d3) =>
    if d2 = 0 ∧ d3 = 0 then Except.ok 0
    else
      let code0 : ℕ := (d2 <<< 8) ||| d3
      let code1 : ℕ := if 400 < code0 ∧ d2 = 0 then d3 else code0
      let code2 : ℕ := max 0 (min 400 code1)
      codeToDb (code2 : ℤ)

/-- Decode of a two-byte gain reply written following the specification
text, for comparison against the source-derived gainFromReply: zero pair
gives 0.0 dB; otherwise the 16-bit code is formed by shift-or; a code
exceeding 400 under a zero high byte (the sentinel) falls back to the low
byte; the final code is clamped to [0,400] before conversion. -/
def decodeGainSpec (hi lo : ℕ) : Except PyErr ℚ :=
  if hi = 0 ∧ lo = 0 then Except.ok 0
  else
    let code16 : ℕ := (hi <<< 8) ||| lo
    let used : ℕ := if 400 < code16 ∧ hi = 0 then lo else code16
    codeToDb (min 400 (max 0 (used : ℤ)))

/-- Embedding of RS232TCPClient.get_gain_db: the first query attempt reads
from s1; only a TimeoutError is caught, and the query is reissued once
against s2; any error of the second attempt propagates. -/
def getGainDb (s1 s2 : List ℕ) : Except PyErr ℚ :=
  gainFromReply
    (match gainAttempt s1 with
     | Except.error PyErr.timeoutError => gainAttempt s2
     | r => r)

/-! ## Mute and gain-step operations (dsp408_ver_7.py) -/

/-- Wire-level mute command issued by RS232TCPClient.set_mute. -/
structure MuteCmd where
  isOutput : Bool
  channel : ℕ
  mute : Bool
deriving DecidableEq, Repr

/-- Embedding of the body of DSP408Client.mute_all, parameterised by the
per-channel lookups the source performs: inUseIn ch stands for the Python
expression input[str(ch)] and inUseOut ch for output[str(ch)].  The whole
body is guarded by the Python statement `if on:`, so nothing at all runs
for on = false. -/
def muteAllCmds (onFlag : Bool) (inUseIn inUseOut : ℕ → Except PyErr Bool) :
    Except PyErr (List MuteCmd) :=
  if onFlag then do
    let mut cmds : List MuteCmd := []
    for ch in [0, 1, 2, 3] do
      let u ← inUseIn ch
      cmds := cmds ++ [⟨false, ch, onFlag && u⟩]
      let v ← inUseOut ch
      cmds := cmds ++ [⟨true, ch, onFlag && v⟩]
    for ch in [4, 5, 6, 7] do
      let v ← inUseOut ch
      cmds := cmds ++ [⟨true, ch, onFlag && v⟩]
    return cmds
  else return []

/-- Embedding of DSP408Client.mute_all as the module actually executes it:
no module-level `input` or `output` maps exist in dsp408_ver_7.py, so
input[str(ch)] subscripts the Python builtin input (TypeError) and
output[str(ch)] would raise NameError. -/
def muteAll (onFlag : Bool) : Except PyErr (List MuteCmd) :=
  muteAllCmds onFlag (fun _ => Except.error PyErr.typeError)
    (fun _ => Except.error PyErr.nameError)

/-- Modelled from the spec: the intended mute_all behaviour with the
configured per-channel in-use maps wired in (a channel marked unused is
left alone; an in-use channel receives mute state on).  The per-channel
command list that behaviour would produce. -/
def muteAllSpec (onFlag : Bool) (inUseIn inUseOut : ℕ → Bool) : List MuteCmd :=
  ((List.range 4).filter inUseIn).map (fun ch => ⟨false, ch, onFlag⟩) ++
  ((List.range 8).filter inUseOut).map (fun ch => ⟨true, ch, onFlag⟩)

def CMD_GAIN : ℕ := 0x41

/-- Embedding of RS232TCPClient.set_gain: builds the 9-byte frame, where
d3 is the Python expression `1 if sign else 0` — integer truthiness, so
every nonzero sign maps to 1. -/
def setGainFrame (addr : ℕ) (isOutput : Bool) (channel : ℕ) (sign : ℤ) :
    List ℕ :=
  let d1 := if isOutput then 1 else 0
  let d2 := channel % 256
  let d3 := if sign ≠ 0 then 1 else 0
  buildPacket addr CMD_GAIN d1 d2 d3

/-- Embedding of the logical value DSP408Client.apply_gain_delta returns:
the advisory clamped cur ± 1.0 dB estimate. -/
def applyGainDeltaValue (cur : ℚ) (sign : ℤ) : ℚ :=
  max (-60) (min 12 (cur + (if 0 < sign then 1 else -1)))

/-! ## Inter-command spacing (RS232TCPClient.send_command)

Time is modelled by a monotonic rational clock.  A send observes the
clock value now, sleeps for the missing part of min_step since the last
recorded send, writes the frame, and records the new timestamp (taken
just after the write, hence not earlier than the write time; the model
takes it equal). -/

/-- Timing core of send_command: from the recorded last-send timestamp and
the current clock value, the frame write time and the new recorded
timestamp. -/
def sendStep (minStep lastTs now : ℚ) : ℚ × ℚ :=
  let delta := now - lastTs
  let t := if delta < minStep then now + (minStep - delta) else now
  (t, t)

/-- A frame write observed on the wire: the bytes and the write time. -/
structure SendEvent where
  frame : List ℕ
  writeTime : ℚ
deriving Repr

/-- Embedding of one send_command call of an arbitrary command: every
command type goes through the same single rate-limiting path before its
frame is written. -/
def sendOnLink (minStep lastTs now : ℚ) (addr cmd d1 d2 d3 : ℕ) :
    SendEvent × ℚ :=
  let p := sendStep minStep lastTs now
  (⟨buildPacket addr cmd d1 d2 d3, p.1⟩, p.2)

/-- Embedding of the min_step initialisation in RS232TCPClient:
max(20, min_step_ms) / 1000 seconds. -/
def minStepOf (minStepMs : ℤ) : ℚ := ((max 20 minStepMs : ℤ) : ℚ) / 1000

/-! ## ProjectorLink (pjlink.py and pjlink_sync.py) -/

/-- Hexadecimal digit test for the banner nonce group [0-9A-Fa-f]. -/
def isHexDigit (c : Char) : Bool :=
  c.isDigit || ('a' ≤ c && c ≤ 'f') || ('A' ≤ c && c ≤ 'F')

/-- Embedding of the banner match used by both clients, the pattern
PJLINK plus whitespace plus one digit, optionally followed by whitespace
and a hexadecimal nonce.  Returns (need auth, nonce) on a match. -/
def parseBanner (text : String) : Option (Bool × String) :=
  let cs := text.toList
  if cs.take 6 = ['P', 'J', 'L', 'I', 'N', 'K'] then
    let rest := cs.drop 6
    let sp := rest.takeWhile (fun c => c.isWhitespace)
    let rest1 := rest.dropWhile (fun c => c.isWhitespace)
    if sp.isEmpty then none
    else
      match rest1 with
      | [] => none
      | d :: rest2 =>
        if d.isDigit then
          let sp2 := rest2.takeWhile (fun c => c.isWhitespace)
          let hex := (rest2.dropWhile (fun c => c.isWhitespace)).takeWhile
            isHexDigit
          let rand := if ¬sp2.isEmpty ∧ ¬hex.isEmpty then String.mk hex
            else ""
          some (decide (d = '1'), rand)
        else none
  else none

/-- Embedding of the Python str.upper restricted to ASCII, as used on the
set_input source argument. -/
def pyUpper (s : String) : String := String.mk (s.toList.map Char.toUpper)

/-- Configured input-source code map of PJLinkClient (pjlink.py). -/
def input_map : List (String × String) :=
  [("Computer1", "11"), ("Computer2", "12"), ("HDMI1", "32"),
   ("HDMI2", "33"), ("HDBaseT", "56")]

/-- Embedding of dict.get over the association list. -/
def dictGet (m : List (String × String)) (k : String) : Option String :=
  (m.find? (fun p => p.1 == k)).map Prod.snd

/-- Contiguous-sublist test on character lists, for the Python membership
test of one string inside another. -/
def subChars : List Char → List Char → Bool
  | needle, [] => needle.isEmpty
  | needle, c :: rest =>
    needle.isPrefixOf (c :: rest) || subChars needle rest

/-- Embedding of the Python expression needle in hay on strings. -/
def containsSub (hay needle : String) : Bool :=
  subChars needle.toList hay.toList

/-- Embedding of PJLinkClient.set_input given the raw response line the
exchange would return: looks up source.upper() in input_map, raises
ValueError on a falsy result, otherwise reports the command text sent and
whether OK occurs in the response. -/
def setInput (source : String) (resp : String) :
    Except PyErr (String × Bool) :=
  match dictGet input_map (pyUpper source) with
  | none => Except.error PyErr.valueError
  | some code =>
    if code = "" then Except.error PyErr.valueError
    else Except.ok ("INPT " ++ code, containsSub resp "OK")

/-- Behaviour of the projector device during one exchange, after a
successful TCP connect: the banner line and the response line are the
decoded and stripped texts (decoding and stripping are pure steps applied
to the received bytes); none means no line arrived before the read
timeout. -/
structure PJDevice where
  banner : Option String
  writeOk : Bool
  resp : Option String

/-- Result of one protocol exchange: whether the connection opened at the
start was closed by the time the exchange finished, and its outcome. -/
structure ExchangeResult where
  closed : Bool
  outcome : Except PyErr String

/-- Embedding of one attempt of PJLinkClient._send_cmd (pjlink.py, async
client) starting after a successful connect.  Only the success path and
the missing-password path close the writer; the paths that raise from the
banner read, the banner parse, the payload write or the response read
leave the connection open. -/
def asyncAttempt (password : String) (dev : PJDevice) : ExchangeResult :=
  match dev.banner with
  | none => ⟨false, Except.error PyErr.timeoutError⟩
  | some b =>
    match parseBanner b with
    | none => ⟨false, Except.error PyErr.runtimeError⟩
    | some (needAuth, _) =>
      if needAuth ∧ password = "" then
        ⟨true, Except.error PyErr.runtimeError⟩
      else if dev.writeOk then
        match dev.resp with
        | none => ⟨false, Except.error PyErr.timeoutError⟩
        | some r => ⟨true, Except.ok r⟩
      else ⟨false, Except.error PyErr.connectionError⟩

/-- Embedding of the try-block body of PJLinkSocketClient._send_cmd_once
(pjlink_sync.py): the handshake raises TimeoutError when no banner line
arrives and RuntimeError on a malformed banner; the response read has no
try/except of its own, so when no response line arrives before the read
timeout the recv call raises TimeoutError out of the try body (the
finally clause still closes the socket). -/
def syncBody (password : String) (dev : PJDevice) : Except PyErr String :=
  match dev.banner with
  | none => Except.error PyErr.timeoutError
  | some b =>
    match parseBanner b with
    | none => Except.error PyErr.runtimeError
    | some (needAuth, _) =>
      if needAuth ∧ password = "" then Except.error PyErr.runtimeError
      else if dev.writeOk then
        match dev.resp with
        | none => Except.error PyErr.timeoutError
        | some r => Except.ok r
      else Except.error PyErr.connectionError

/-- Embedding of PJLinkSocketClient._send_cmd_once: the try body wrapped
in a finally clause that always shuts down and closes the socket. -/
def syncSendOnce (password : String) (dev : PJDevice) : ExchangeResult :=
  ⟨true, syncBody password dev⟩

/-- Exact condition under which the async client closes the connection,
read off the control flow of _send_cmd: a response was received, or the
exchange aborted for a missing password after a valid banner. -/
def asyncCloses (password : String) (dev : PJDevice) : Bool :=
  match dev.banner with
  | none => false
  | some b =>
    match parseBanner b with
    | none => false
    | some (needAuth, _) =>
      if needAuth ∧ password = "" then true
      else dev.writeOk && dev.resp.isSome

/-! ## PowerSequencer (api_ver_7.py, _wait_power_state and _power_sequence)

The poll loop is modelled on an idealised clock in which iteration i
starts at time 1.5 * i (each iteration sleeps 1.5 seconds, poll duration
neglected) against an abstract poll oracle: polls i is the result of the
i-th pj.get_power() call, Except.error standing for any exception raised
inside the try of that iteration.  The structural recursion carries a
fuel argument; the theorems show the loop exits at the budget boundary
long before any sufficient fuel runs out. -/

/-- One execution of the while loop of _wait_power_state from iteration
index i with current last-seen state st: returns (reached desired, last
state, number of polls performed). -/
def waitGo (polls : ℕ → Except Unit ℤ) (desired : ℤ) (budget : ℚ) :
    ℕ → ℕ → ℤ → Bool × ℤ × ℕ
  | 0, _, st => (false, st, 0)
  | fuel + 1, i, st =>
    if (i : ℚ) * (3/2) < budget then
      match polls i with
      | Except.ok s =>
        if s = desired then (true, s, 1)
        else
          let r := waitGo polls desired budget fuel (i + 1) s
          (r.1, r.2.1, r.2.2 + 1)
      | Except.error _ =>
        let r := waitGo polls desired budget fuel (i + 1) st
        (r.1, r.2.1, r.2.2 + 1)
    else (false, st, 0)

/-- Embedding of _wait_power_state: the loop starts at index 0 with the
initial sentinel state 4. -/
def waitPowerState (polls : ℕ → Except Unit ℤ) (desired : ℤ) (budget : ℚ)
    (fuel : ℕ) : Bool × ℤ × ℕ :=
  waitGo polls desired budget fuel 0 4

/-- Embedding of the power-off branch of _power_sequence: pj.power(False)
runs inside try/except (powerResult records its outcome, which the branch
only logs), then _wait_power_state polls for Standby (0) with a 90 second
budget.  Fuel 61 exceeds the 60 iterations the budget allows. -/
def powerOffRun (powerResult : Except Unit Bool)
    (polls : ℕ → Except Unit ℤ) : Bool × ℤ × ℕ :=
  waitPowerState polls 0 90 61

/-- Observable step of the power-on branch of _power_sequence. -/
inductive PowerAction where
  | relaySet (channel : ℕ) (turnOn : Bool)
  | publish (text : String)
  | sleep (seconds : ℚ)
  | pjPower (turnOn : Bool)
deriving DecidableEq, Repr

/-- Embedding of the power-on branch of _power_sequence as its sequence of
observable actions: mains relay on (result bound to ok and never
inspected), two status publications, the NIC warm-up sleep, then
pj.power(True) inside try/except with a status publication on either
outcome. -/
def powerOnActions (relayResult : Bool) (nicWarmup : ℚ)
    (pjResult : Except Unit Bool) : List PowerAction :=
  [PowerAction.relaySet 0 true,
   PowerAction.publish "Alimentazione -> ON",
   PowerAction.publish "Alimentazione --> ON",
   PowerAction.sleep nicWarmup] ++
  (PowerAction.pjPower true ::
    (match pjResult with
     | Except.ok _ => [PowerAction.publish "Proiettore -> ON"]
     | Except.error _ =>
       [PowerAction.publish "Errore accensione proiettore"]))

/-! ## Helper lemmas -/

/-- Python round of an integer-valued rational is that integer. -/
theorem pyRound_intCast (n : ℤ) : pyRound ((n : ℚ)) = n := by
  unfold pyRound
  rw [Int.floor_intCast]
  rw [if_pos (by rw [sub_self]; norm_num)]

/-- code_to_db succeeds on every code inside [0,400]. -/
theorem codeToDb_ok_of_range (c : ℤ) (h0 : 0 ≤ c) (h1 : c ≤ 400) :
    ∃ q, codeToDb c = Except.ok q := by
  unfold codeToDb
  rw [if_neg (by omega : ¬¬(0 ≤ c ∧ c ≤ 400))]
  split_ifs <;> exact ⟨_, rfl⟩

/-- Clamping is the identity on decibel values already inside [-60,12]. -/
theorem clampDb_eq_self (db : ℚ) (h0 : ¬ db < -60) (h1 : ¬ 12 < db) :
    clampDb db = db := by
  unfold clampDb
  rw [if_neg h0, if_neg h1]

/-- db_to_code on the low segment of an in-range input. -/
theorem dbToCode_low (db : ℚ) (h0 : ¬ db < -60) (h1 : ¬ 12 < db)
    (h2 : db ≤ -20) : dbToCode db = pyRound ((db + 60) / (1/2)) := by
  unfold dbToCode
  rw [clampDb_eq_self db h0 h1, if_pos h2]

/-- db_to_code on the middle segment of an in-range input. -/
theorem dbToCode_mid (db : ℚ) (h0 : ¬ db < -60) (h1 : ¬ 12 < db)
    (h2 : ¬ db ≤ -20) (h3 : db ≤ 0) :
    dbToCode db = pyRound (80 + (db + 20) / (1/10)) := by
  unfold dbToCode
  rw [clampDb_eq_self db h0 h1, if_neg h2, if_pos h3]

/-- db_to_code on the high segment of an in-range input. -/
theorem dbToCode_high (db : ℚ) (h0 : ¬ db < -60) (h1 : ¬ 12 < db)
    (h3 : ¬ db ≤ 0) : dbToCode db = pyRound (280 + (db - 0) / (1/10)) := by
  unfold dbToCode
  rw [clampDb_eq_self db h0 h1, if_neg (by linarith : ¬ db ≤ -20), if_neg h3]

/-! ## Claim theorems -/

/-- C1: the claim states that getMute returns false without raising when
the device sends no reply bytes before the reply timeout.  On the code
this is false: with expect_reply true the reply read raises TimeoutError
(the None guard of get_mute is unreachable), shown here by evaluating the
embedding on a silent device. -/
theorem getMute_silent_device_raises_timeout :
    getMute false 0 [] = Except.error PyErr.timeoutError := rfl

/-- C2: the claim states that muteAll(on) sends mute state on to every
in-use channel and no command to unused channels, for both on values.  On
the code this is false: for on = false the body is skipped entirely and
no command is sent, and for on = true the per-channel lookup
input[str(ch)] subscripts the Python builtin input and raises TypeError
before any command is sent; moreover even with the configured in-use maps
wired in, the loop would send explicit unmute commands to unused channels
instead of leaving them alone, differing from the spec-modelled command
list. -/
theorem muteAll_diverges_from_spec :
    muteAll true = Except.error PyErr.typeError ∧
    muteAll false = Except.ok [] ∧
    muteAllCmds true (fun ch => Except.ok (ch == 0))
        (fun ch => Except.ok (ch == 0 || ch == 4)) =
      Except.ok
        [⟨false, 0, true⟩, ⟨true, 0, true⟩, ⟨false, 1, false⟩,
         ⟨true, 1, false⟩, ⟨false, 2, false⟩, ⟨true, 2, false⟩,
         ⟨false, 3, false⟩, ⟨true, 3, false⟩, ⟨true, 4, true⟩,
         ⟨true, 5, false⟩, ⟨true, 6, false⟩, ⟨true, 7, false⟩] ∧
    muteAllSpec true (fun ch => ch == 0) (fun ch => ch == 0 || ch == 4) =
      [⟨false, 0, true⟩, ⟨true, 0, true⟩, ⟨true, 4, true⟩] := by
  exact ⟨rfl, rfl, rfl, rfl⟩

/-- C4: the claim states that setInput fails with InvalidArgument exactly
for sources absent from the configured map, and succeeds for every mapped
source including Computer1 and HDBaseT.  On the code this is false: the
lookup key is source.upper(), so the mixed-case map keys Computer1,
Computer2 and HDBaseT can never match and those sources raise ValueError
even though they are in the map; only the all-caps keys are reachable,
and for those the OK-containment result matches the claim. -/
theorem setInput_uppercase_lookup_misses_map_keys :
    ("Computer1", "11") ∈ input_map ∧
    setInput "Computer1" "%1INPT=OK" = Except.error PyErr.valueError ∧
    ("HDBaseT", "56") ∈ input_map ∧
    setInput "HDBaseT" "%1INPT=OK" = Except.error PyErr.valueError ∧
    setInput "HDMI1" "%1INPT=OK" = Except.ok ("INPT 32", true) ∧
    setInput "HDMI1" "%1INPT=ERR2" = Except.ok ("INPT 32", false) := by
  exact ⟨by decide, rfl, by decide, rfl, rfl, rfl⟩

/-- C5: for every two-byte reply (hi, lo) the get_gain_db decode follows
the specification text (zero pair gives 0.0 dB, 16-bit assembly, sentinel
fallback for a code over 400 under a zero high byte, clamp to [0,400]
before conversion), the conversion of the clamped code never fails, a
first-attempt timeout makes the query run against the second attempt
stream, and a timeout of both attempts propagates — the query is retried
exactly once. -/
theorem getGainDb_decode_and_retry :
    ∀ (hi lo : ℕ) (s2 : List ℕ),
    gainFromReply (Except.ok (hi, lo)) = decodeGainSpec hi lo ∧
    (∃ q, gainFromReply (Except.ok (hi, lo)) = Except.ok q) ∧
    getGainDb [] s2 = gainFromReply (gainAttempt s2) ∧
    getGainDb [] [] = Except.error PyErr.timeoutError := by
  intro hi lo s2
  refine ⟨?_, ?_, rfl, rfl⟩
  · simp only [gainFromReply, decodeGainSpec]
    by_cases h : hi = 0 ∧ lo = 0
    · rw [if_pos h, if_pos h]
    · rw [if_neg h, if_neg h]
      congr 1
      push_cast
      omega
  · simp only [gainFromReply]
    by_cases h : hi = 0 ∧ lo = 0
    · rw [if_pos h]; exact ⟨_, rfl⟩
    · rw [if_neg h]
      apply codeToDb_ok_of_range <;> push_cast <;> omega

/-- C6: for every code c in {0, 1, 80, 81, 280, 281, 400}, code_to_db
succeeds and db_to_code maps the resulting decibel value back to c; in
particular the pair is an exact inverse at the knot codes 0, 80, 280 and
400. -/
theorem dbToCode_roundtrip_knots :
    ∀ c : ℤ, c ∈ ([0, 1, 80, 81, 280, 281, 400] : List ℤ) →
    ∃ d : ℚ, codeToDb c = Except.ok d ∧ dbToCode d = c := by
  intro c hc
  fin_cases hc
  · refine ⟨-60, by unfold codeToDb; norm_num, ?_⟩
    rw [dbToCode_low (-60) (by norm_num) (by norm_num) (by norm_num)]
    rw [(by norm_num : ((-60 : ℚ) + 60) / (1/2) = ((0 : ℤ) : ℚ))]
    exact pyRound_intCast 0
  · refine ⟨-119/2, by unfold codeToDb; norm_num, ?_⟩
    rw [dbToCode_low (-119/2) (by norm_num) (by norm_num) (by norm_num)]
    rw [(by norm_num : ((-119/2 : ℚ) + 60) / (1/2) = ((1 : ℤ) : ℚ))]
    exact pyRound_intCast 1
  · refine ⟨-20, by unfold codeToDb; norm_num, ?_⟩
    rw [dbToCode_low (-20) (by norm_num) (by norm_num) (by norm_num)]
    rw [(by norm_num : ((-20 : ℚ) + 60) / (1/2) = ((80 : ℤ) : ℚ))]
    exact pyRound_intCast 80
  · refine ⟨-199/10, by unfold codeToDb; norm_num, ?_⟩
    rw [dbToCode_mid (-199/10) (by norm_num) (by norm_num) (by norm_num)
      (by norm_num)]
    rw [(by norm_num :
      (80 : ℚ) + ((-199/10 : ℚ) + 20) / (1/10) = ((81 : ℤ) : ℚ))]
    exact pyRound_intCast 81
  · refine ⟨0, by unfold codeToDb; norm_num, ?_⟩
    rw [dbToCode_mid 0 (by norm_num) (by norm_num) (by norm_num)
      (by norm_num)]
    rw [(by norm_num : (80 : ℚ) + ((0 : ℚ) + 20) / (1/10) = ((280 : ℤ) : ℚ))]
    exact pyRound_intCast 280
  · refine ⟨1/10, by unfold codeToDb; norm_num, ?_⟩
    rw [dbToCode_high (1/10) (by norm_num) (by norm_num) (by norm_num)]
    rw [(by norm_num :
      (280 : ℚ) + ((1/10 : ℚ) - 0) / (1/10) = ((281 : ℤ) : ℚ))]
    exact pyRound_intCast 281
  · refine ⟨12, by unfold codeToDb; norm_num, ?_⟩
    rw [dbToCode_high 12 (by norm_num) (by norm_num) (by norm_num)]
    rw [(by norm_num : (280 : ℚ) + ((12 : ℚ) - 0) / (1/10) = ((400 : ℤ) : ℚ))]
    exact pyRound_intCast 400

/-- C6 witness: the round trip evaluated at the knot code 0. -/
theorem dbToCode_roundtrip_knots_witness :
    (0 : ℤ) ∈ ([0, 1, 80, 81, 280, 281, 400] : List ℤ) ∧
    ∃ d : ℚ, codeToDb 0 = Except.ok d ∧ dbToCode d = 0 :=
  ⟨by decide, dbToCode_roundtrip_knots 0 (by decide)⟩

/-- C3 counterexample: the claim states that the connection opened for a
protocol exchange is closed on every path, but one attempt of the async
client against a device that sends a malformed banner raises RuntimeError
with the connection left open. -/
theorem pjlink_async_leak_on_malformed_banner :
    (asyncAttempt "1234" ⟨some "HELLO", true, some "%1POWR=OK"⟩).closed
      = false ∧
    (asyncAttempt "1234" ⟨some "HELLO", true, some "%1POWR=OK"⟩).outcome
      = Except.error PyErr.runtimeError := ⟨rfl, rfl⟩

/-- C3 amended: the synchronous client (pjlink_sync.py) closes the
connection on every path of an exchange, success and error alike, via its
finally clause; the asynchronous client (pjlink.py) closes it exactly
when a response line is received or when it aborts for a missing password
after a valid banner — on the banner-timeout, malformed-banner, write-
failure and response-timeout paths the connection stays open. -/
theorem pjlink_close_semantics :
    ∀ (password : String) (dev : PJDevice),
    (syncSendOnce password dev).closed = true ∧
    (asyncAttempt password dev).closed = asyncCloses password dev := by
  intro pw dev
  refine ⟨rfl, ?_⟩
  rcases dev with ⟨b, w, r⟩
  cases b with
  | none => rfl
  | some s =>
    cases hp : parseBanner s with
    | none => simp [asyncAttempt, asyncCloses, hp]
    | some p =>
      rcases p with ⟨na, rand⟩
      by_cases hna : na = true ∧ pw = ""
      · simp [asyncAttempt, asyncCloses, hp, hna]
      · cases w <;> cases r <;> simp [asyncAttempt, asyncCloses, hp, hna]

/-- Write time of a send is at least the recorded previous-send timestamp
plus the configured spacing, provided the clock did not run backwards. -/
theorem sendStep_write_lower (ms lastTs now : ℚ) (h : lastTs ≤ now) :
    lastTs + ms ≤ (sendStep ms lastTs now).1 := by
  unfold sendStep
  dsimp only
  split_ifs with hlt
  · linarith
  · push_neg at hlt
    linarith

/-- C7: for two consecutive sends on one link — of arbitrary command
types — the second frame is not written before minInterCommandSpacing has
elapsed since the first frame was written, given only that the monotonic
clock does not run backwards between the first send and the second call. -/
theorem minInterCommandSpacing_enforced :
    ∀ (ms last0 now1 now2 : ℚ) (addr cmd1 a1 b1 e1 cmd2 a2 b2 e2 : ℕ),
    last0 ≤ now1 →
    (sendOnLink ms last0 now1 addr cmd1 a1 b1 e1).2 ≤ now2 →
    (sendOnLink ms last0 now1 addr cmd1 a1 b1 e1).1.writeTime + ms ≤
      (sendOnLink ms (sendOnLink ms last0 now1 addr cmd1 a1 b1 e1).2 now2
        addr cmd2 a2 b2 e2).1.writeTime := by
  intro ms last0 now1 now2 addr cmd1 a1 b1 e1 cmd2 a2 b2 e2 h1 h2
  exact sendStep_write_lower ms _ now2 h2

/-- C7 witness: two back-to-back sends with the default 20 ms spacing at
concrete clock readings. -/
theorem minInterCommandSpacing_enforced_witness :
    (0 : ℚ) ≤ 0 ∧ (sendOnLink (1/50) 0 0 3 65 0 0 1).2 ≤ 1 ∧
    (sendOnLink (1/50) 0 0 3 65 0 0 1).1.writeTime + 1/50 ≤
      (sendOnLink (1/50) (sendOnLink (1/50) 0 0 3 65 0 0 1).2 1 3 66 0 0
        0).1.writeTime :=
  ⟨le_refl 0, by norm_num [sendOnLink, sendStep],
   minInterCommandSpacing_enforced (1/50) 0 0 1 3 65 0 0 1 66 0 0 0
     (le_refl 0) (by norm_num [sendOnLink, sendStep])⟩

/-- Iteration i of the poll loop starts before the budget iff fewer than
60 iterations have happened (budget 90 seconds, period 1.5 seconds). -/
theorem iterTime_lt_budget (i : ℕ) : ((i : ℚ) * (3/2) < 90) ↔ i < 60 := by
  constructor
  · intro h
    by_contra hge
    push_neg at hge
    have h60 : (60 : ℚ) ≤ (i : ℚ) := by exact_mod_cast hge
    linarith
  · intro h
    have h60 : (i : ℚ) < 60 := by exact_mod_cast h
    linarith

/-- Against polls that never return the desired Standby state, the wait
loop runs to budget exhaustion: it reports false and performs exactly the
60 polls the 90 second budget allows, for any sufficient fuel. -/
theorem waitGo_exhausts_budget (polls : ℕ → Except Unit ℤ)
    (h : ∀ j s, polls j = Except.ok s → s ≠ 0) :
    ∀ (fuel i : ℕ) (st : ℤ), 60 ≤ i + fuel → i ≤ 60 →
    (waitGo polls 0 90 fuel i st).1 = false ∧
    (waitGo polls 0 90 fuel i st).2.2 = 60 - i := by
  intro fuel
  induction fuel with
  | zero =>
    intro i st h1 h2
    have hi : i = 60 := by omega
    subst hi
    exact ⟨rfl, rfl⟩
  | succ f ih =>
    intro i st h1 h2
    by_cases hi : i < 60
    · simp only [waitGo]
      rw [if_pos ((iterTime_lt_budget i).mpr hi)]
      cases hp : polls i with
      | ok s =>
        have hs : ¬ s = 0 := h i s hp
        dsimp only
        rw [if_neg hs]
        have hrec := ih (i + 1) s (by omega) (by omega)
        refine ⟨hrec.1, ?_⟩
        dsimp only
        rw [hrec.2]
        omega
      | error err =>
        dsimp only
        have hrec := ih (i + 1) st (by omega) (by omega)
        refine ⟨hrec.1, ?_⟩
        dsimp only
        rw [hrec.2]
        omega
    · have h60 : i = 60 := by omega
      subst h60
      simp only [waitGo]
      rw [if_neg (by rw [iterTime_lt_budget]; omega)]
      exact ⟨rfl, rfl⟩

/-- C8: the power-off branch issues the projector power-off inside
try/except (its outcome is only logged), then polls for Standby every 1.5
seconds; when no poll ever returns Standby — including polls that raise,
which are swallowed — the loop performs exactly the 60 polls of the 90
second budget, terminates at the budget boundary and reports false
instead of raising. -/
theorem powerOff_times_out_at_budget (powerResult : Except Unit Bool)
    (polls : ℕ → Except Unit ℤ)
    (h : ∀ j s, polls j = Except.ok s → s ≠ 0) :
    (powerOffRun powerResult polls).1 = false ∧
    (powerOffRun powerResult polls).2.2 = 60 := by
  have hout := waitGo_exhausts_budget polls h 61 0 4 (by omega) (by omega)
  exact ⟨hout.1, hout.2⟩

/-- C8 witness: a projector stuck in Cooling (state 2) forever. -/
theorem powerOff_times_out_at_budget_witness :
    (powerOffRun (Except.ok true) (fun _ => Except.ok 2)).1 = false ∧
    (powerOffRun (Except.ok true) (fun _ => Except.ok 2)).2.2 = 60 :=
  powerOff_times_out_at_budget (Except.ok true) (fun _ => Except.ok 2)
    (by intro j s hs; injection hs with h2; omega)

/-- C9: a false return from the mains relay capability call does not
change the power-on sequence at all: the NIC warm-up sleep still happens
and the projector power-on command is still issued. -/
theorem powerOn_relay_failure_nonfatal :
    ∀ (nicWarmup : ℚ) (pjResult : Except Unit Bool),
    powerOnActions false nicWarmup pjResult =
      powerOnActions true nicWarmup pjResult ∧
    PowerAction.sleep nicWarmup ∈ powerOnActions false nicWarmup pjResult ∧
    PowerAction.pjPower true ∈ powerOnActions false nicWarmup pjResult := by
  intro w pj
  refine ⟨rfl, ?_, ?_⟩ <;> cases pj <;> simp [powerOnActions]

/-- C10: the 9-byte frame of the raw gain-step command is identical for
sign +1 and sign -1 — the direction byte is 1 for every nonzero sign —
while the logical value apply_gain_delta reports differs by direction for
every in-range current gain. -/
theorem setGain_frame_ignores_sign_direction :
    ∀ (addr : ℕ) (isOut : Bool) (ch : ℕ),
    setGainFrame addr isOut ch 1 = setGainFrame addr isOut ch (-1) ∧
    (setGainFrame addr isOut ch 1).length = 9 ∧
    (∀ cur : ℚ, -60 ≤ cur → cur ≤ 12 →
      applyGainDeltaValue cur 1 ≠ applyGainDeltaValue cur (-1)) := by
  intro addr isOut ch
  refine ⟨rfl, rfl, ?_⟩
  intro cur h1 h2 heq
  norm_num [applyGainDeltaValue] at heq
  rw [min_def, min_def, max_def, max_def] at heq
  split_ifs at heq <;> linarith

/-- C10 witness: the frame identity and the differing logical values at
address 3, the input bus, channel 0, current gain 0 dB. -/
theorem setGain_frame_ignores_sign_direction_witness :
    setGainFrame 3 false 0 1 = setGainFrame 3 false 0 (-1) ∧
    ((-60 : ℚ) ≤ 0 ∧ (0 : ℚ) ≤ 12 ∧
      applyGainDeltaValue 0 1 ≠ applyGainDeltaValue 0 (-1)) :=
  ⟨(setGain_frame_ignores_sign_direction 3 false 0).1,
   by norm_num, by norm_num,
   (setGain_frame_ignores_sign_direction 3 false 0).2.2 0 (by norm_num)
     (by norm_num)⟩

end Roomctl
